import Mathlib

/-!
Shallow embedding of the PlexPy APIv2 command-dispatch engine
(src/plexpy/api2.py, class API2) and proofs about its behaviour.

Python values that flow through the engine (handler results, envelopes)
are modelled by the type PyVal below; flat HTTP parameter bags are
association lists of strings; the process configuration singleton is the
structure Config.  External libraries (json, xmltodict) are modelled at
their interface by executable Lean functions; the engine itself
(_api_validate, _api_run, _api_responds, _api_out_as, get_apikey, restart)
is translated line by line from the source.
-/

mutual
/-- Python values as they appear in the engine: None, booleans, integers,
strings, lists, string-keyed dicts, and opaque objects (exception
instances and other values the serializers cannot represent), carrying
their description string. -/
inductive PyVal where
  | none
  | bool (b : Bool)
  | int (n : Int)
  | str (s : String)
  | exc (m : String)
  | list (xs : PyList)
  | dict (xs : PyDict)
inductive PyList where
  | nil
  | cons (x : PyVal) (xs : PyList)
inductive PyDict where
  | nil
  | cons (k : String) (v : PyVal) (xs : PyDict)
end

deriving instance DecidableEq for PyVal, PyList, PyDict

deriving instance DecidableEq for Except

/-- Number of entries of a dict (Python len). -/
def PyDict.length : PyDict → Nat
  | .nil => 0
  | .cons _ _ xs => xs.length + 1

/-- First value stored under a key, if any. -/
def PyDict.lookup : PyDict → String → Option PyVal
  | .nil, _ => Option.none
  | .cons k v xs, key => if k = key then some v else xs.lookup key

/-- Python dict item assignment d[key] = val: replace in place if the key
exists, append otherwise. -/
def PyDict.setKey : PyDict → String → PyVal → PyDict
  | .nil, key, val => .cons key val .nil
  | .cons k v xs, key, val =>
      if k = key then .cons k val xs else .cons k v (xs.setKey key val)

/-- Python item assignment out[key] = val; in the engine it is only ever
applied to the envelope dict, so non-dict receivers are left unchanged. -/
def PyVal.setItem : PyVal → String → PyVal → PyVal
  | .dict xs, key, val => .dict (xs.setKey key val)
  | w, _, _ => w

/-- Python truthiness of the values the engine tests with bare if. -/
def PyVal.truthy : PyVal → Bool
  | .none => false
  | .bool b => b
  | .int n => n ≠ 0
  | .str s => s ≠ ""
  | .exc _ => true
  | .list .nil => false
  | .list _ => true
  | .dict .nil => false
  | .dict _ => true

/-- Raw request parameter bag: cherrypy delivers a flat mapping from
string keys to string values. -/
abbrev PyBag := List (String × String)

/-- First value stored under a key of the bag (Python dict get). -/
def bagLookup : PyBag → String → Option String
  | [], _ => Option.none
  | (k, v) :: rest, key => if k = key then some v else bagLookup rest key

/-- Process configuration fields consumed by the engine
(plexpy.CONFIG.*). API_KEY is a string, empty when not generated. -/
structure Config where
  API_ENABLED : Bool
  API_KEY : String
  HTTP_USERNAME : String
  HTTP_PASSWORD : String
deriving DecidableEq

/-- The registered command names: the public methods of class API2 (names
not starting with an underscore), as enumerated by _api_docs via
inspect.getmembers (which yields them sorted by name). -/
def apiValidMethods : List String :=
  ["backup_config", "backup_db", "docs", "docs_md", "get_apikey",
   "get_logs", "get_settings", "refresh_libraries_list",
   "refresh_users_list", "restart", "sql", "update"]

/-- The first-match-wins rejection message of _api_validate
(api2.py lines 79-98); none when every check passes. -/
def rejectionMsg (cfg : Config) (bag : PyBag) : Option String :=
  if ¬cfg.API_ENABLED then some "API not enabled"
  else if cfg.API_KEY = "" then some "API key not generated"
  else if cfg.API_KEY.length ≠ 32 then some "API key not generated correctly"
  else if (bagLookup bag "apikey").isNone then some "Parameter apikey is required"
  else if (bagLookup bag "apikey").getD "" ≠ cfg.API_KEY then some "Invalid apikey"
  else if (bagLookup bag "cmd").isNone then
    some ("Parameter cmd is required. Possible commands are: " ++
      String.intercalate ", " apiValidMethods)
  else if ¬apiValidMethods.contains ((bagLookup bag "cmd").getD "") then
    some ("Unknown command: " ++ (bagLookup bag "cmd").getD "" ++
      ". Possible commands are: " ++ String.intercalate ", " apiValidMethods)
  else Option.none

/-- Truthiness of a popped parameter value whose pop default was False
(the debug parameter): absent means False, a string means non-emptiness. -/
def truthyStrOpt : Option String → Bool
  | some s => s ≠ ""
  | Option.none => false

/-- The reserved keys _api_validate pops from the bag. -/
def reservedKeys : List String :=
  ["callback", "apikey", "cmd", "debug", "profileme", "out_type"]

/-- The bag after all reserved keys have been popped. -/
def popReserved (bag : PyBag) : PyBag :=
  bag.filter (fun p => ¬reservedKeys.contains p.1)

/-- Membership of the optional cmd in a command list; Python in on None
is False. -/
def cmdIn (cmd : Option String) (cmds : List String) : Bool :=
  match cmd with
  | some c => cmds.contains c
  | Option.none => false

/-- Per-request instance state of API2 after _api_validate: the _api_*
attributes set in __init__ and _api_validate. -/
structure ApiCtx where
  authenticated : Bool
  out_type : String
  msg : Option String
  debug : Bool
  cmd : Option String
  apikey : Option String
  callback : Option String
  profileme : Option String
  result_type : String
  kwargs : Option PyBag
deriving DecidableEq

/-- API2._api_validate (api2.py lines 76-120): compute the rejection
message, pop the reserved keys, then decide authentication; on success
clear the message and store the cleaned kwargs. -/
def apiValidate (cfg : Config) (bag : PyBag) : ApiCtx :=
  let base : ApiCtx :=
    { authenticated := false
      out_type := (bagLookup bag "out_type").getD "json"
      msg := rejectionMsg cfg bag
      debug := truthyStrOpt (bagLookup bag "debug")
      cmd := bagLookup bag "cmd"
      apikey := bagLookup bag "apikey"
      callback := bagLookup bag "callback"
      profileme := bagLookup bag "profileme"
      result_type := "failed"
      kwargs := Option.none }
  if bagLookup bag "apikey" = some cfg.API_KEY ∧ cfg.API_ENABLED ∧
      cmdIn (bagLookup bag "cmd") apiValidMethods then
    { base with authenticated := true, msg := Option.none, kwargs := some (popReserved bag) }
  else if cmdIn (bagLookup bag "cmd") ["get_apikey", "docs", "docs_md"] ∧
      cfg.API_ENABLED then
    { base with authenticated := true, msg := Option.none, kwargs := some (popReserved bag) }
  else
    base

/-- A well-formed enabled configuration used by concrete witnesses. -/
def cfgGood : Config :=
  { API_ENABLED := true
    API_KEY := "0123456789abcdef0123456789abcdef"
    HTTP_USERNAME := ""
    HTTP_PASSWORD := "" }

example : (apiValidate cfgGood [("apikey", "0123456789abcdef0123456789abcdef"), ("cmd", "restart")]).authenticated = true := by decide

example : (apiValidate cfgGood [("cmd", "docs")]).msg = Option.none := by decide

example : (apiValidate cfgGood []).msg = some "Parameter apikey is required" := by decide

/-- Escape of one character inside a JSON string literal. -/
def jsonEscapeChar (c : Char) : String :=
  if c = '"' then "\\\""
  else if c = '\\' then "\\\\"
  else if c = '\n' then "\\n"
  else if c = '\r' then "\\r"
  else if c = '\t' then "\\t"
  else String.singleton c

/-- A JSON string literal for s. -/
def jsonQuote (s : String) : String :=
  "\"" ++ String.join (s.data.map jsonEscapeChar) ++ "\""

mutual
/-- Model of the external json.dumps with default separators: compact
rendering; fails (TypeError) on opaque objects, yielding their
description as the fault text. -/
def jsonDumpsCompact : PyVal → Except String String
  | .none => .ok "null"
  | .bool b => .ok (cond b "true" "false")
  | .int n => .ok (toString n)
  | .str s => .ok (jsonQuote s)
  | .exc m => .error m
  | .list xs => (jsonDumpsCompactList xs).map
      (fun ps => "[" ++ String.intercalate ", " ps ++ "]")
  | .dict xs => (jsonDumpsCompactDict xs).map
      (fun ps => "\x7b" ++ String.intercalate ", " ps ++ "\x7d")
def jsonDumpsCompactList : PyList → Except String (List String)
  | .nil => .ok []
  | .cons x xs => do pure ((← jsonDumpsCompact x) :: (← jsonDumpsCompactList xs))
def jsonDumpsCompactDict : PyDict → Except String (List String)
  | .nil => .ok []
  | .cons k v xs => do
      pure ((jsonQuote k ++ ": " ++ (← jsonDumpsCompact v)) :: (← jsonDumpsCompactDict xs))
end

/-- A run of 4*d spaces, the indentation json.dumps uses at depth d when
called with indent=4. -/
def jsonIndent (d : Nat) : String :=
  String.mk (List.replicate (4 * d) ' ')

/-- Insertion of a rendered dict entry into a key-sorted list
(sort_keys=True). -/
def insertByKey (p : String × String) : List (String × String) → List (String × String)
  | [] => [p]
  | q :: qs => if (compare p.1 q.1).isLE then p :: q :: qs else q :: insertByKey p qs

/-- Key-sort of rendered dict entries (sort_keys=True). -/
def sortByKey : List (String × String) → List (String × String)
  | [] => []
  | p :: ps => insertByKey p (sortByKey ps)

mutual
/-- Model of the external json.dumps with indent=4 and sort_keys=True
(the debug rendering), up to the exact whitespace conventions of the
Python pretty printer; fails on opaque objects like the compact form. -/
def jsonDumpsPretty : Nat → PyVal → Except String String
  | _, .none => .ok "null"
  | _, .bool b => .ok (cond b "true" "false")
  | _, .int n => .ok (toString n)
  | _, .str s => .ok (jsonQuote s)
  | _, .exc m => .error m
  | _, .list .nil => .ok "[]"
  | d, .list xs => (jsonDumpsPrettyList (d + 1) xs).map (fun ps =>
      "[\n" ++ String.intercalate ",\n" (ps.map (fun s => jsonIndent (d + 1) ++ s)) ++
      "\n" ++ jsonIndent d ++ "]")
  | _, .dict .nil => .ok "\x7b\x7d"
  | d, .dict xs => (jsonDumpsPrettyDict (d + 1) xs).map (fun ps =>
      "\x7b\n" ++ String.intercalate ",\n" ((sortByKey ps).map
        (fun p => jsonIndent (d + 1) ++ jsonQuote p.1 ++ ": " ++ p.2)) ++
      "\n" ++ jsonIndent d ++ "\x7d")
def jsonDumpsPrettyList : Nat → PyList → Except String (List String)
  | _, .nil => .ok []
  | d, .cons x xs => do pure ((← jsonDumpsPretty d x) :: (← jsonDumpsPrettyList d xs))
def jsonDumpsPrettyDict : Nat → PyDict → Except String (List (String × String))
  | _, .nil => .ok []
  | d, .cons k v xs => do pure ((k, ← jsonDumpsPretty d v) :: (← jsonDumpsPrettyDict d xs))
end

/-- The json.dumps call of _api_out_as: pretty when debug is set, compact
otherwise. -/
def json_dumps (pretty : Bool) (v : PyVal) : Except String String :=
  if pretty then jsonDumpsPretty 0 v else jsonDumpsCompact v

/-- JSON insignificant whitespace skipping. -/
def jsonSkipWs : List Char → List Char
  | c :: cs => if c = ' ' ∨ c = '\t' ∨ c = '\n' ∨ c = '\r' then jsonSkipWs cs else c :: cs
  | [] => []

/-- JSON string literal body up to the closing quote; escape sequences
are not modelled (no input proved about contains one). -/
def jsonReadString : List Char → Option (String × List Char)
  | [] => Option.none
  | c :: cs =>
      if c = '"' then some ("", cs)
      else if c = '\\' then Option.none
      else (jsonReadString cs).map (fun p => (String.singleton c ++ p.1, p.2))

/-- JSON integer literal digits (leading zeros rejected as in JSON). -/
def jsonReadNat (cs : List Char) : Option (Nat × List Char) :=
  match cs.span Char.isDigit with
  | ([], _) => Option.none
  | (ds, rest) =>
      if ds.head? = some '0' ∧ ds.length > 1 then Option.none
      else some (ds.foldl (fun a c => a * 10 + (c.toNat - 48)) 0, rest)

mutual
/-- Model of the external json.loads on text: a fuel-indexed recursive
descent over the JSON grammar restricted to the values of PyVal
(floating literals and string escapes are out of the modelled fragment). -/
def jsonParseVal : Nat → List Char → Option (PyVal × List Char)
  | 0, _ => Option.none
  | fuel + 1, cs =>
    match jsonSkipWs cs with
    | 'n' :: 'u' :: 'l' :: 'l' :: rest => some (PyVal.none, rest)
    | 't' :: 'r' :: 'u' :: 'e' :: rest => some (PyVal.bool true, rest)
    | 'f' :: 'a' :: 'l' :: 's' :: 'e' :: rest => some (PyVal.bool false, rest)
    | '"' :: rest => (jsonReadString rest).map (fun p => (PyVal.str p.1, p.2))
    | '[' :: rest =>
      (match jsonSkipWs rest with
       | ']' :: rest2 => some (PyVal.list .nil, rest2)
       | rest2 => (jsonParseItems fuel rest2).map (fun p => (PyVal.list p.1, p.2)))
    | '\x7b' :: rest =>
      (match jsonSkipWs rest with
       | '\x7d' :: rest2 => some (PyVal.dict .nil, rest2)
       | rest2 => (jsonParsePairs fuel rest2).map (fun p => (PyVal.dict p.1, p.2)))
    | '-' :: rest => (jsonReadNat rest).map (fun p => (PyVal.int (-(p.1 : Int)), p.2))
    | c :: rest =>
      if c.isDigit then (jsonReadNat (c :: rest)).map (fun p => (PyVal.int (p.1 : Int), p.2))
      else Option.none
    | [] => Option.none
def jsonParseItems : Nat → List Char → Option (PyList × List Char)
  | 0, _ => Option.none
  | fuel + 1, cs => do
    let (v, rest) ← jsonParseVal fuel cs
    match jsonSkipWs rest with
    | ',' :: rest2 => (jsonParseItems fuel rest2).map (fun p => (PyList.cons v p.1, p.2))
    | ']' :: rest2 => some (PyList.cons v .nil, rest2)
    | _ => Option.none
def jsonParsePairs : Nat → List Char → Option (PyDict × List Char)
  | 0, _ => Option.none
  | fuel + 1, cs =>
    match jsonSkipWs cs with
    | '"' :: rest => do
      let (k, rest2) ← jsonReadString rest
      match jsonSkipWs rest2 with
      | ':' :: rest3 => do
        let (v, rest4) ← jsonParseVal fuel rest3
        (match jsonSkipWs rest4 with
         | ',' :: rest5 => (jsonParsePairs fuel rest5).map (fun p => (PyDict.cons k v p.1, p.2))
         | '\x7d' :: rest5 => some (PyDict.cons k v .nil, rest5)
         | _ => Option.none)
      | _ => Option.none
    | _ => Option.none
end

/-- Model of the external json.loads as called by the result normalizer:
it raises TypeError on non-string input and ValueError on text that is
not a complete JSON document; both exception classes are caught at the
call site, so faults are collapsed to a unit error. -/
def json_loads_model : PyVal → Except Unit PyVal
  | .str s =>
    (match jsonParseVal (2 * s.length + 2) s.data with
     | some (v, rest) => if jsonSkipWs rest = [] then .ok v else .error ()
     | Option.none => .error ())
  | _ => .error ()

example : json_loads_model (.str "null") = .ok PyVal.none := by decide
example : json_loads_model (.str " \x7b\"a\": 1\x7d ") =
    .ok (.dict (.cons "a" (.int 1) .nil)) := by decide
example : json_loads_model (.str "[1, true]") =
    .ok (.list (.cons (.int 1) (.cons (.bool true) .nil))) := by decide
example : json_loads_model PyVal.none = .error () := by decide
example : json_loads_model (.str "not json") = .error () := by decide

mutual
/-- Model of the element emission of the external xmltodict.unparse: a
dict becomes children, a list repeats its key, scalars become text (None
empty); opaque objects are the values the serializer cannot represent,
and raise a fault carrying their description. -/
def xmlEmit : String → PyVal → Except String String
  | key, .dict xs => (xmlEmitDict xs).map
      (fun s => "<" ++ key ++ ">" ++ s ++ "</" ++ key ++ ">")
  | key, .list xs => xmlEmitList key xs
  | key, .none => .ok ("<" ++ key ++ "></" ++ key ++ ">")
  | key, .str s => .ok ("<" ++ key ++ ">" ++ s ++ "</" ++ key ++ ">")
  | key, .int n => .ok ("<" ++ key ++ ">" ++ toString n ++ "</" ++ key ++ ">")
  | key, .bool b => .ok ("<" ++ key ++ ">" ++ (cond b "True" "False") ++ "</" ++ key ++ ">")
  | _, .exc m => .error m
def xmlEmitDict : PyDict → Except String String
  | .nil => .ok ""
  | .cons k v xs => do pure ((← xmlEmit k v) ++ (← xmlEmitDict xs))
def xmlEmitList : String → PyList → Except String String
  | _, .nil => .ok ""
  | key, .cons x xs => do pure ((← xmlEmit key x) ++ (← xmlEmitList key xs))
end

/-- Model of the external xmltodict.unparse: the document must have
exactly one root key (a ValueError with this wording otherwise, which is
what the dict the formatter has widened with message and result keys
runs into), then the root element is emitted after the XML declaration. -/
def xmltodict_unparse : PyVal → Except String String
  | .dict (.cons k v .nil) => (xmlEmit k v).map
      (fun b => "<?xml version=\"1.0\" encoding=\"utf-8\"?>\n" ++ b)
  | _ => .error "Document must have exactly one root."

/-- Tag name after an opening angle bracket, up to the closing one. -/
def xmlReadTag : List Char → Option (String × List Char)
  | [] => Option.none
  | c :: cs =>
      if c = '>' then some ("", cs)
      else if c = '<' then Option.none
      else (xmlReadTag cs).map (fun p => (String.singleton c ++ p.1, p.2))

/-- Model of the external xmltodict.parse as called by the result
normalizer (attr_prefix=''): it raises on non-string input and on text
that is not well-formed XML; the modelled success fragment is a single
flat element, the only shape any proof below exercises, mapping to a
one-key dict whose value is the text content (None when empty). -/
def xmltodict_parse_model : PyVal → Except Unit PyVal
  | .str s =>
    (match s.data with
     | '<' :: rest =>
       (match xmlReadTag rest with
        | some (tag, body) =>
          let closing := ("</" ++ tag ++ ">").data
          let content := body.take (body.length - closing.length)
          if tag ≠ "" ∧ body = content ++ closing ∧ content.all (· ≠ '<') then
            .ok (.dict (.cons tag
              (if content.isEmpty then PyVal.none else PyVal.str (String.mk content)) .nil))
          else .error ()
        | Option.none => .error ())
     | _ => .error ())
  | _ => .error ()

example : xmltodict_parse_model (.str "<a>x</a>") =
    .ok (.dict (.cons "a" (.str "x") .nil)) := by decide
example : xmltodict_parse_model PyVal.none = .error () := by decide

/-- Test used by the result normalizer: already a structured value
(isinstance(result, (dict, list))). -/
def isStructured : PyVal → Bool
  | .dict _ => true
  | .list _ => true
  | _ => false

/-- The result-normalization block of API2._api_run (api2.py lines
530-550), parametric in the two external parsers: structured values pass
through, otherwise JSON then XML parsing is attempted into the local ret
(initially None), and at the end the raw result replaces a ret that is
(still) None. -/
def normalizeResult (jp xp : PyVal → Except Unit PyVal) (result : PyVal) : PyVal :=
  let ret : PyVal :=
    if isStructured result then result
    else
      match jp result with
      | .ok v => v
      | .error _ =>
        match xp result with
        | .ok v => v
        | .error _ => PyVal.none
  if ret = PyVal.none then result else ret

/-- Attribute writes a handler performs besides returning a value: the
returned (or raised) result, and the side-channel attributes self.msg,
self.result_type and the module-level signal, none of which is an _api_*
attribute. -/
structure HandlerOut where
  ret : Except String PyVal
  msg_attr : Option String
  result_type_attr : Option String
  signal : Option String

/-- A handler table: the dispatch getattr(self, cmd) applied to the
cleaned kwargs. -/
abbrev Handlers := String → PyBag → HandlerOut

/-- API2.restart (api2.py lines 322-327): sets the module signal and the
attributes self.msg and self.result_type, and returns None. -/
def restartHandler (_kwargs : PyBag) : HandlerOut :=
  { ret := .ok PyVal.none
    msg_attr := some "Restarting plexpy"
    result_type_attr := some "success"
    signal := some "restart" }

/-- Handler table exercised by the concrete runs below; only restart is
invoked by any theorem in this file, the other commands perform external
input/output that stays behind the handler interface. -/
def restartOnlyHandlers : Handlers := fun c kwargs =>
  if c = "restart" then restartHandler kwargs
  else { ret := .ok PyVal.none, msg_attr := Option.none,
         result_type_attr := Option.none, signal := Option.none }

/-- API2._api_responds (api2.py lines 444-450): the uniform envelope;
a None data is replaced by an empty dict. -/
def apiResponds (result_type : String) (data : PyVal) (msg : Option String) : PyVal :=
  let d := if data = PyVal.none then PyVal.dict .nil else data
  let m := match msg with
    | some s => PyVal.str s
    | Option.none => PyVal.none
  .dict (.cons "response"
    (.dict (.cons "result" (.str result_type)
      (.cons "message" m
        (.cons "data" d .nil)))) .nil)

/-- Output of _api_out_as: the Content-Type header it set (none when it
left the transport default) and the value it returned (a string body, or
the unserialized dict on the JSON fault path). -/
structure OutResult where
  contentType : Option String
  body : PyVal
deriving DecidableEq

/-- Value of out with key response then data looked up (the verbatim
passthrough of the documentation and image commands); the engine only
reaches this on envelopes built by _api_responds, where both keys exist. -/
def responseData : PyVal → PyVal
  | .dict xs =>
    (match xs.lookup "response" with
     | some (.dict ys) => (ys.lookup "data").getD PyVal.none
     | _ => PyVal.none)
  | _ => PyVal.none

/-- The json branch of API2._api_out_as (api2.py lines 465-480): set the
JSON content type, serialize (pretty in debug), wrap as JSONP when a
callback was supplied (switching the content type to script); a
serialization fault is caught and the keys message and result are
assigned on the out value, which is then returned unserialized. -/
def apiOutJson (debug : Bool) (callback : Option String) (out : PyVal) : OutResult :=
  match json_dumps debug out with
  | .ok s =>
    (match callback with
     | some cb =>
       { contentType := some "application/javascript", body := .str (cb ++ "(" ++ s ++ ");") }
     | Option.none =>
       { contentType := some "application/json;charset=UTF-8", body := .str s })
  | .error e =>
    { contentType := some "application/json;charset=UTF-8"
      body := (out.setItem "message" (.str e)).setItem "result" (.str "error") }

/-- The hand-built minimal XML error document of _api_out_as (api2.py
lines 494-500), with the fault description interpolated for %s. -/
def xmlErrorDoc (e : String) : String :=
  "<?xml version=\"1.0\" encoding=\"utf-8\"?>\n" ++
  "                                <response>\n" ++
  "                                    <message>" ++ e ++ "</message>\n" ++
  "                                    <data></data>\n" ++
  "                                    <result>error</result>\n" ++
  "                                </response>\n" ++
  "                          "

/-- The xml branch of API2._api_out_as (api2.py lines 481-500): set the
XML content type and serialize; on a fault, assign the exception object
to the key message and the string error to the key result on out and
retry; when the retry also faults, fall back to the hand-built document
carrying the retry fault. -/
def apiOutXml (out : PyVal) : OutResult :=
  match xmltodict_unparse out with
  | .ok s => { contentType := some "application/xml", body := .str s }
  | .error e =>
    (match xmltodict_unparse ((out.setItem "message" (.exc e)).setItem "result" (.str "error")) with
     | .ok s => { contentType := some "application/xml", body := .str s }
     | .error e2 => { contentType := some "application/xml", body := .str (xmlErrorDoc e2) })

/-- API2._api_out_as (api2.py lines 452-502): the special-cased commands
first, then the json and xml renderings selected by out_type; any other
out_type returns the envelope unchanged with no header set. -/
def apiOutAs (cmd : Option String) (out_type : String) (debug : Bool)
    (callback : Option String) (out : PyVal) : OutResult :=
  if cmd = some "docs_md" then { contentType := Option.none, body := responseData out }
  else if cmd = some "download_log" then { contentType := Option.none, body := PyVal.none }
  else if cmd = some "pms_image_proxy" then
    { contentType := some "image/jpeg", body := responseData out }
  else if out_type = "json" then apiOutJson debug callback out
  else if out_type = "xml" then apiOutXml out
  else { contentType := Option.none, body := out }

/-- Python truthiness of the optional _api_cmd attribute. -/
def cmdTruthy : Option String → Bool
  | some c => c ≠ ""
  | Option.none => false

/-- API2._api_run up to the envelope (api2.py lines 504-559 before the
final _api_out_as): validate, dispatch when a command is set and the
request authenticated (faults propagate in debug mode, otherwise they
are contained and result keeps its initial empty dict), normalize the
result, then classify: success when the normalized data is truthy or
_api_result_type was already the string success (it still holds its
initial value failed here, the handlers write the distinct attribute
result_type), else error.  An uncontained fault is the error case. -/
def apiRunCore (handlers : Handlers) (jp xp : PyVal → Except Unit PyVal)
    (cfg : Config) (bag : PyBag) : Except String (ApiCtx × PyVal) :=
  let ctx := apiValidate cfg bag
  let resultE : Except String PyVal :=
    if cmdTruthy ctx.cmd ∧ ctx.authenticated then
      let h := handlers (ctx.cmd.getD "") (ctx.kwargs.getD [])
      if ctx.debug then h.ret
      else
        match h.ret with
        | .ok v => .ok v
        | .error _ => .ok (PyVal.dict .nil)
    else .ok (PyVal.dict .nil)
  match resultE with
  | .error e => .error e
  | .ok result =>
    let ret := normalizeResult jp xp result
    let rt := if ret.truthy ∨ ctx.result_type = "success" then "success" else "error"
    .ok (ctx, apiResponds rt ret ctx.msg)

/-- API2._api_run (api2.py line 559): hand the envelope to _api_out_as
under the request context extracted by _api_validate. -/
def apiRun (handlers : Handlers) (jp xp : PyVal → Except Unit PyVal)
    (cfg : Config) (bag : PyBag) : Except String OutResult :=
  match apiRunCore handlers jp xp cfg bag with
  | .error e => .error e
  | .ok (ctx, env) => .ok (apiOutAs ctx.cmd ctx.out_type ctx.debug ctx.callback env)

/-- Observable outcome of API2.get_apikey: the value of self.data (none
when the attribute was never assigned, in which case the terminal return
self.data raises AttributeError), the value of self.msg, the
configuration afterwards, and whether CONFIG.write() ran. -/
structure GetApikeyOut where
  data : Option String
  msg : Option String
  cfg : Config
  wrote : Bool
deriving DecidableEq

/-- API2.get_apikey (api2.py lines 405-442). httpUsernameGlobal is the
module attribute plexpy.HTTP_USERNAME the source compares the username
against (distinct from plexpy.CONFIG.HTTP_USERNAME tested for
truthiness); freshKey is the 32-character digest drawn from the random
bits before any branching. -/
def get_apikey (httpUsernameGlobal freshKey : String) (cfg : Config)
    (username password : String) : GetApikeyOut :=
  if cfg.HTTP_USERNAME ≠ "" ∧ cfg.HTTP_PASSWORD ≠ "" then
    if username = httpUsernameGlobal ∧ password = cfg.HTTP_PASSWORD then
      if cfg.API_KEY ≠ "" then
        { data := some cfg.API_KEY, msg := Option.none, cfg := cfg, wrote := false }
      else
        { data := some freshKey, msg := Option.none
          cfg := { cfg with API_KEY := freshKey }, wrote := true }
    else
      { data := Option.none
        msg := some "Authentication is enabled, please add the correct username and password to the parameters"
        cfg := cfg, wrote := false }
  else
    if cfg.API_KEY ≠ "" then
      { data := some cfg.API_KEY, msg := Option.none, cfg := cfg, wrote := false }
    else
      { data := some freshKey, msg := Option.none
        cfg := { cfg with API_KEY := freshKey }, wrote := true }

example :
    apiRunCore restartOnlyHandlers json_loads_model xmltodict_parse_model cfgGood
      [("apikey", "0123456789abcdef0123456789abcdef"), ("cmd", "restart")] =
    .ok ({ authenticated := true, out_type := "json", msg := Option.none, debug := false,
           cmd := some "restart", apikey := some "0123456789abcdef0123456789abcdef",
           callback := Option.none, profileme := Option.none, result_type := "failed",
           kwargs := some [] },
         apiResponds "error" (PyVal.dict .nil) Option.none) := by decide

example :
    apiRun restartOnlyHandlers json_loads_model xmltodict_parse_model cfgGood
      [("apikey", "0123456789abcdef0123456789abcdef"), ("cmd", "restart")] =
    .ok { contentType := some "application/json;charset=UTF-8",
          body := .str "\x7b\"response\": \x7b\"result\": \"error\", \"message\": null, \"data\": \x7b\x7d\x7d\x7d" } := by decide

example :
    apiRun restartOnlyHandlers json_loads_model xmltodict_parse_model cfgGood
      [("apikey", "0123456789abcdef0123456789abcdef"), ("cmd", "restart"),
       ("callback", "pong"), ("out_type", "xml")] =
    .ok { contentType := some "application/xml",
          body := .str "<?xml version=\"1.0\" encoding=\"utf-8\"?>\n<response><result>error</result><message></message><data></data></response>" } := by decide

/-- A disabled-API configuration used by concrete witnesses. -/
def cfgDisabled : Config :=
  { API_ENABLED := false, API_KEY := "", HTTP_USERNAME := "", HTTP_PASSWORD := "" }

theorem apiValidate_result_type (cfg : Config) (bag : PyBag) :
    (apiValidate cfg bag).result_type = "failed" := by
  unfold apiValidate
  split
  · rfl
  · split <;> rfl

theorem apiValidate_fields (cfg : Config) (bag : PyBag) :
    (apiValidate cfg bag).cmd = bagLookup bag "cmd" ∧
    (apiValidate cfg bag).out_type = (bagLookup bag "out_type").getD "json" ∧
    (apiValidate cfg bag).debug = truthyStrOpt (bagLookup bag "debug") ∧
    (apiValidate cfg bag).callback = bagLookup bag "callback" := by
  unfold apiValidate
  split
  · exact ⟨rfl, rfl, rfl, rfl⟩
  · split <;> exact ⟨rfl, rfl, rfl, rfl⟩

theorem structured_ne_none {r : PyVal} (h : isStructured r = true) : r ≠ PyVal.none := by
  cases r <;> simp_all [isStructured]

theorem apiRunCore_unauth (handlers : Handlers) (jp xp : PyVal → Except Unit PyVal)
    (cfg : Config) (bag : PyBag) (h : (apiValidate cfg bag).authenticated = false) :
    apiRunCore handlers jp xp cfg bag =
      .ok (apiValidate cfg bag,
           apiResponds "error" (PyVal.dict .nil) ((apiValidate cfg bag).msg)) := by
  unfold apiRunCore
  have hrt := apiValidate_result_type cfg bag
  simp [h, hrt, normalizeResult, isStructured, PyVal.truthy]



/-- C1: for an authenticated, non-debug request invoking restart with no
additional arguments, the handler does write success and a message into
its side channel, but those writes go to the attributes result_type and
msg, while _api_run reads the distinct attributes _api_result_type and
_api_msg; the rendered envelope therefore carries result error (with
data an empty dict and message None), not the success the side channel
announced.  The source comment at the classification step (to allow
override for restart etc) shows the side channel was meant to be
honored, so this evaluation exhibits the code bug the claim runs into. -/
theorem restart_envelope_error_despite_success_side_channel :
    (restartHandler []).result_type_attr = some "success" ∧
    (restartHandler []).msg_attr = some "Restarting plexpy" ∧
    apiRunCore restartOnlyHandlers json_loads_model xmltodict_parse_model cfgGood
        [("apikey", "0123456789abcdef0123456789abcdef"), ("cmd", "restart")] =
      .ok ({ authenticated := true, out_type := "json", msg := Option.none, debug := false,
             cmd := some "restart", apikey := some "0123456789abcdef0123456789abcdef",
             callback := Option.none, profileme := Option.none, result_type := "failed",
             kwargs := some [] },
           apiResponds "error" (PyVal.dict .nil) Option.none) ∧
    "error" ≠ "success" := by decide

/-- C2: validation authenticates exactly when the supplied apikey equals
the configured key, the API is enabled and cmd names a registered
command, or when cmd is one of the three always-public commands and the
API is enabled; and on success the earlier rejection message is cleared
and the reserved-key-stripped bag becomes the cleaned parameters. -/
theorem apiValidate_authenticated_iff (cfg : Config) (bag : PyBag) :
    ((apiValidate cfg bag).authenticated = true ↔
      ((bagLookup bag "apikey" = some cfg.API_KEY ∧ cfg.API_ENABLED ∧
        cmdIn (bagLookup bag "cmd") apiValidMethods) ∨
       (cmdIn (bagLookup bag "cmd") ["get_apikey", "docs", "docs_md"] ∧
        cfg.API_ENABLED))) ∧
    ((apiValidate cfg bag).authenticated = true →
      (apiValidate cfg bag).msg = Option.none ∧
      (apiValidate cfg bag).kwargs = some (popReserved bag)) := by
  unfold apiValidate
  split
  next h => simp_all
  next h =>
    split
    next h2 => simp_all
    next h2 => simp_all

/-- Witness for C2 at a concrete enabled configuration and a bag holding
a valid key, a registered command and one surplus parameter. -/
theorem apiValidate_authenticated_iff_witness :
    (apiValidate cfgGood [("apikey", "0123456789abcdef0123456789abcdef"),
        ("cmd", "restart"), ("a", "b")]).msg = Option.none ∧
    (apiValidate cfgGood [("apikey", "0123456789abcdef0123456789abcdef"),
        ("cmd", "restart"), ("a", "b")]).kwargs = some [("a", "b")] := by
  have h := apiValidate_authenticated_iff cfgGood
    [("apikey", "0123456789abcdef0123456789abcdef"), ("cmd", "restart"), ("a", "b")]
  have hauth := h.1.mpr (Or.inl (by decide))
  have hc := h.2 hauth
  exact ⟨hc.1, hc.2.trans (by decide)⟩

/-- C3 counterexample: a request rejected for a missing apikey (not the
unknown-command case) renders an envelope whose result classification is
error, not the failed the claim states: the classification step of
_api_run overwrites the initial failed whenever the data is empty and no
success was recorded, which is every rejection. -/
theorem rejection_classification_counterexample :
    (apiValidate cfgGood [("cmd", "restart")]).msg = some "Parameter apikey is required" ∧
    (apiValidate cfgGood [("cmd", "restart")]).authenticated = false ∧
    apiRunCore restartOnlyHandlers json_loads_model xmltodict_parse_model cfgGood
        [("cmd", "restart")] =
      .ok (apiValidate cfgGood [("cmd", "restart")],
           apiResponds "error" (PyVal.dict .nil) (some "Parameter apikey is required")) ∧
    "error" ≠ "failed" := by decide

/-- C3 amended: every request rejected by validation, whatever the
rejection reason, renders an envelope with result classification error
(never failed): the dispatcher is skipped, the empty result normalizes
to an empty dict, and the final classification step turns the untouched
failed into error. -/
theorem rejected_request_envelope_error (handlers : Handlers)
    (jp xp : PyVal → Except Unit PyVal) (cfg : Config) (bag : PyBag)
    (h : (apiValidate cfg bag).authenticated = false) :
    apiRunCore handlers jp xp cfg bag =
      .ok (apiValidate cfg bag,
           apiResponds "error" (PyVal.dict .nil) ((apiValidate cfg bag).msg)) :=
  apiRunCore_unauth handlers jp xp cfg bag h

/-- Witness for C3 amended: the disabled-API rejection renders error. -/
theorem rejected_request_envelope_error_witness :
    apiRunCore restartOnlyHandlers json_loads_model xmltodict_parse_model cfgDisabled [] =
      .ok (apiValidate cfgDisabled [],
           apiResponds "error" (PyVal.dict .nil) (some "API not enabled")) := by
  have h := rejected_request_envelope_error restartOnlyHandlers json_loads_model
    xmltodict_parse_model cfgDisabled [] (by decide)
  exact h.trans (by decide)

/-- C4 counterexample: a request supplying callback pong together with
out_type xml is emitted as plain XML with the XML content type; the
JSONP wrapping only exists inside the json branch of _api_out_as, so it
is not applied regardless of out_type as the claim states. -/
theorem jsonp_out_type_counterexample :
    apiRun restartOnlyHandlers json_loads_model xmltodict_parse_model cfgGood
        [("apikey", "0123456789abcdef0123456789abcdef"), ("cmd", "restart"),
         ("callback", "pong"), ("out_type", "xml")] =
      .ok { contentType := some "application/xml",
            body := .str "<?xml version=\"1.0\" encoding=\"utf-8\"?>\n<response><result>error</result><message></message><data></data></response>" } ∧
    (some "application/xml" : Option String) ≠ some "application/javascript" := by decide

/-- C4 amended: the JSONP wrapping applies exactly in the json rendering
path: when out_type is json and serialization succeeds, a supplied
callback wraps the body as callback(json); with the script content
type; when out_type is xml the callback parameter is ignored entirely
(the rendering is the same as with no callback). -/
theorem jsonp_wrap_json_only (cmd : Option String) (debug : Bool) (cb : String)
    (out : PyVal) (s : String)
    (h1 : cmd ≠ some "docs_md") (h2 : cmd ≠ some "download_log")
    (h3 : cmd ≠ some "pms_image_proxy") :
    (json_dumps debug out = .ok s →
      apiOutAs cmd "json" debug (some cb) out =
        { contentType := some "application/javascript",
          body := .str (cb ++ "(" ++ s ++ ");") }) ∧
    apiOutAs cmd "xml" debug (some cb) out = apiOutAs cmd "xml" debug Option.none out := by
  constructor
  · intro hd
    simp [apiOutAs, h1, h2, h3, apiOutJson, hd]
  · simp [apiOutAs, h1, h2, h3]

/-- Witness for C4 amended at the restart command and a concrete
envelope. -/
theorem jsonp_wrap_json_only_witness :
    apiOutAs (some "restart") "json" false (some "pong")
        (apiResponds "success" (PyVal.dict .nil) Option.none) =
      { contentType := some "application/javascript",
        body := .str "pong(\x7b\"response\": \x7b\"result\": \"success\", \"message\": null, \"data\": \x7b\x7d\x7d\x7d);" } := by
  have h := (jsonp_wrap_json_only (some "restart") false "pong"
    (apiResponds "success" (PyVal.dict .nil) Option.none)
    "\x7b\"response\": \x7b\"result\": \"success\", \"message\": null, \"data\": \x7b\x7d\x7d\x7d"
    (by decide) (by decide) (by decide)).1 (by decide)
  exact h

/-- C5: for json output a serialization fault never escapes the
formatter: the fault is caught and the out value is returned with its
keys message (the fault description) and result (error) assigned, under
the JSON content type.  The formatter is a total function by
construction, so no fault propagates past it. -/
theorem json_fault_contained (debug : Bool) (cb : Option String) (out : PyVal)
    (e : String) (h : json_dumps debug out = .error e) :
    apiOutJson debug cb out =
      { contentType := some "application/json;charset=UTF-8",
        body := (out.setItem "message" (.str e)).setItem "result" (.str "error") } := by
  simp [apiOutJson, h]

/-- Witness for C5: an envelope whose data is an object json cannot
serialize. -/
theorem json_fault_contained_witness :
    apiOutJson false Option.none (apiResponds "success" (PyVal.exc "boom") Option.none) =
      { contentType := some "application/json;charset=UTF-8",
        body := ((apiResponds "success" (PyVal.exc "boom") Option.none).setItem
          "message" (.str "boom")).setItem "result" (.str "error") } :=
  json_fault_contained false Option.none
    (apiResponds "success" (PyVal.exc "boom") Option.none) "boom" (by decide)

/-- C6: the xml formatter always produces a string response and lets no
fault escape: a successful serialization is emitted; on a fault it
retries once with the keys message (the fault, as the exception object)
and result (error) assigned on the out value; and when the retry also
faults it emits the hand-built minimal XML error document carrying the
retry fault description.  The last conjunct is the totality guarantee. -/
theorem xml_formatter_three_tier (out : PyVal) (s e1 e2 : String) :
    (xmltodict_unparse out = .ok s →
      apiOutXml out = { contentType := some "application/xml", body := .str s }) ∧
    (xmltodict_unparse out = .error e1 →
      xmltodict_unparse ((out.setItem "message" (.exc e1)).setItem "result" (.str "error")) = .ok s →
      apiOutXml out = { contentType := some "application/xml", body := .str s }) ∧
    (xmltodict_unparse out = .error e1 →
      xmltodict_unparse ((out.setItem "message" (.exc e1)).setItem "result" (.str "error")) = .error e2 →
      apiOutXml out = { contentType := some "application/xml", body := .str (xmlErrorDoc e2) }) ∧
    (∃ b, apiOutXml out = { contentType := some "application/xml", body := .str b }) := by
  refine ⟨?_, ?_, ?_, ?_⟩
  · intro h; simp [apiOutXml, h]
  · intro h1 h2; simp [apiOutXml, h1, h2]
  · intro h1 h2; simp [apiOutXml, h1, h2]
  · unfold apiOutXml
    rcases hu : xmltodict_unparse out with e | s1
    · rcases hu2 : xmltodict_unparse ((out.setItem "message" (.exc e)).setItem "result" (.str "error")) with e' | s2
      · exact ⟨xmlErrorDoc e', by simp [hu, hu2]⟩
      · exact ⟨s2, by simp [hu, hu2]⟩
    · exact ⟨s1, by simp [hu]⟩

/-- Witness for C6: an envelope whose data is an object the XML
serializer cannot represent falls through both tiers (the retry fails
because the widened dict no longer has a single root) and emits the
hand-built document carrying the retry fault. -/
theorem xml_formatter_three_tier_witness :
    apiOutXml (apiResponds "success" (PyVal.exc "boom") Option.none) =
      { contentType := some "application/xml",
        body := .str (xmlErrorDoc "Document must have exactly one root.") } :=
  (xml_formatter_three_tier (apiResponds "success" (PyVal.exc "boom") Option.none)
      "" "boom" "Document must have exactly one root.").2.2.1 (by decide) (by decide)

/-- C7 counterexample: for the raw handler result the string null, the
JSON parse succeeds and yields the parsed structure None, yet the
normalizer does not use it: the final fallback keys on the computed
value being None, so the raw string is passed through instead, contrary
to rule 2 of the claimed coercion order. -/
theorem normalizer_null_counterexample :
    json_loads_model (.str "null") = .ok PyVal.none ∧
    normalizeResult json_loads_model xmltodict_parse_model (.str "null") = .str "null" ∧
    PyVal.str "null" ≠ PyVal.none := by decide

/-- C7 amended: the normalizer applies the claimed coercion order with
one qualification: a parse success is only used when the parsed value is
not None; a parse (JSON or XML) that succeeds with None falls through to
the raw value, because the final fallback tests the computed value for
None rather than testing whether any rule applied. -/
theorem normalizeResult_coercion_order (jp xp : PyVal → Except Unit PyVal) (r v : PyVal) :
    (isStructured r = true → normalizeResult jp xp r = r) ∧
    (isStructured r = false → jp r = .ok v → v ≠ PyVal.none → normalizeResult jp xp r = v) ∧
    (isStructured r = false → jp r = .ok PyVal.none → normalizeResult jp xp r = r) ∧
    (isStructured r = false → jp r = .error () → xp r = .ok v → v ≠ PyVal.none →
      normalizeResult jp xp r = v) ∧
    (isStructured r = false → jp r = .error () → xp r = .ok PyVal.none →
      normalizeResult jp xp r = r) ∧
    (isStructured r = false → jp r = .error () → xp r = .error () →
      normalizeResult jp xp r = r) := by
  refine ⟨?_, ?_, ?_, ?_, ?_, ?_⟩
  · intro h
    have := structured_ne_none h
    simp [normalizeResult, h, this]
  · intro h h1 h2; simp [normalizeResult, h, h1, h2]
  · intro h h1; simp [normalizeResult, h, h1]
  · intro h h1 h2 h3; simp [normalizeResult, h, h1, h2, h3]
  · intro h h1 h2; simp [normalizeResult, h, h1, h2]
  · intro h h1 h2; simp [normalizeResult, h, h1, h2]

/-- Witness for C7 amended: an unstructured raw result that is valid
JSON text of a non-None value normalizes to the parsed structure. -/
theorem normalizeResult_coercion_order_witness :
    normalizeResult json_loads_model xmltodict_parse_model (.str "true") = .bool true :=
  (normalizeResult_coercion_order json_loads_model xmltodict_parse_model
      (.str "true") (.bool true)).2.1 (by decide) (by decide) (by decide)

/-- C8: with HTTP authentication not configured (the setting under which
an empty username and password reach the key lookup at all) and a
32-character key already stored, get_apikey returns the stored key, and
a second call returns the same key again with no configuration write on
either call; the freshly drawn candidate keys of the two calls are
irrelevant. -/
theorem get_apikey_idempotent (g k1 k2 : String) (cfg : Config)
    (hauth : cfg.HTTP_USERNAME = "" ∨ cfg.HTTP_PASSWORD = "")
    (hlen : cfg.API_KEY.length = 32) :
    (get_apikey g k1 cfg "" "").data = some cfg.API_KEY ∧
    (get_apikey g k1 cfg "" "").wrote = false ∧
    (get_apikey g k2 ((get_apikey g k1 cfg "" "").cfg) "" "").data = some cfg.API_KEY ∧
    (get_apikey g k2 ((get_apikey g k1 cfg "" "").cfg) "" "").wrote = false := by
  have hk : cfg.API_KEY ≠ "" := by
    intro h
    rw [h] at hlen
    simp at hlen
  have hcond : ¬(cfg.HTTP_USERNAME ≠ "" ∧ cfg.HTTP_PASSWORD ≠ "") := by tauto
  simp [get_apikey, hcond, hk]

/-- Witness for C8 at a concrete configuration with a stored key and no
HTTP credentials, with two distinct fresh candidates. -/
theorem get_apikey_idempotent_witness :
    (get_apikey "" "fresh1" cfgGood "" "").data =
      some "0123456789abcdef0123456789abcdef" ∧
    (get_apikey "" "fresh2" ((get_apikey "" "fresh1" cfgGood "" "").cfg) "" "").data =
      some "0123456789abcdef0123456789abcdef" ∧
    (get_apikey "" "fresh2" ((get_apikey "" "fresh1" cfgGood "" "").cfg) "" "").wrote = false := by
  have h := get_apikey_idempotent "" "fresh1" "fresh2" cfgGood (Or.inl (by decide)) (by decide)
  exact ⟨h.1, h.2.2.1, h.2.2.2⟩

/-- C9 counterexample: a bag with no apikey whose cmd is the public
command docs is not rejected at all under an enabled configuration: the
always-public branch authenticates it, the rejection message computed at
the missing-apikey check is cleared, and a cleaned parameter set is
produced. -/
theorem missing_apikey_counterexample :
    bagLookup [("cmd", "docs")] "apikey" = Option.none ∧
    (apiValidate cfgGood [("cmd", "docs")]).authenticated = true ∧
    (apiValidate cfgGood [("cmd", "docs")]).msg = Option.none ∧
    (apiValidate cfgGood [("cmd", "docs")]).kwargs = some [] := by decide

/-- C9 amended: under an enabled configuration with a well-formed
32-character key, a bag with no apikey is rejected with exactly the
message Parameter apikey is required and no cleaned parameters, provided
its cmd is not one of the three always-public commands (those are
authenticated despite the missing key, clearing the message). -/
theorem missing_apikey_rejected (cfg : Config) (bag : PyBag)
    (h1 : cfg.API_ENABLED = true) (h2 : cfg.API_KEY.length = 32)
    (h3 : bagLookup bag "apikey" = Option.none)
    (h4 : cmdIn (bagLookup bag "cmd") ["get_apikey", "docs", "docs_md"] = false) :
    (apiValidate cfg bag).msg = some "Parameter apikey is required" ∧
    (apiValidate cfg bag).authenticated = false ∧
    (apiValidate cfg bag).kwargs = Option.none := by
  have hk : cfg.API_KEY ≠ "" := by
    intro h
    rw [h] at h2
    simp at h2
  have hne : bagLookup bag "apikey" ≠ some cfg.API_KEY := by
    rw [h3]
    simp
  have hmsg : rejectionMsg cfg bag = some "Parameter apikey is required" := by
    simp [rejectionMsg, h1, h2, hk, h3]
  unfold apiValidate
  simp [hne, h4, hmsg]

/-- Witness for C9 amended: the empty bag under the concrete enabled
configuration. -/
theorem missing_apikey_rejected_witness :
    (apiValidate cfgGood []).msg = some "Parameter apikey is required" ∧
    (apiValidate cfgGood []).authenticated = false ∧
    (apiValidate cfgGood []).kwargs = Option.none :=
  missing_apikey_rejected cfgGood [] (by decide) (by decide) (by decide) (by decide)

/-- C10: even for a request that fails validation entirely, the reserved
keys callback, debug and out_type are extracted from the bag and applied
when rendering: the emitted response is exactly _api_out_as applied
under the bag's own out_type (defaulting to json), debug truthiness and
callback, to the error envelope, so an unauthenticated caller controls
the wire format, pretty-printing and the JSONP wrapper of the error
envelope it receives. -/
theorem unauthenticated_caller_controls_rendering (handlers : Handlers)
    (jp xp : PyVal → Except Unit PyVal) (cfg : Config) (bag : PyBag)
    (h : (apiValidate cfg bag).authenticated = false) :
    apiRun handlers jp xp cfg bag =
      .ok (apiOutAs (bagLookup bag "cmd") ((bagLookup bag "out_type").getD "json")
            (truthyStrOpt (bagLookup bag "debug")) (bagLookup bag "callback")
            (apiResponds "error" (PyVal.dict .nil) ((apiValidate cfg bag).msg))) := by
  have hf := apiValidate_fields cfg bag
  unfold apiRun
  rw [apiRunCore_unauth handlers jp xp cfg bag h]
  show Except.ok (apiOutAs (apiValidate cfg bag).cmd (apiValidate cfg bag).out_type
    (apiValidate cfg bag).debug (apiValidate cfg bag).callback
    (apiResponds "error" (PyVal.dict .nil) ((apiValidate cfg bag).msg))) = _
  rw [hf.1, hf.2.1, hf.2.2.1, hf.2.2.2]

/-- Witness for C10: an unauthenticated request (unknown command, wrong
key) that selects xml output, a JSONP callback and debug mode; its
error envelope is rendered under exactly those bag-controlled choices. -/
theorem unauthenticated_caller_controls_rendering_witness :
    apiRun restartOnlyHandlers json_loads_model xmltodict_parse_model cfgGood
        [("cmd", "nosuch"), ("out_type", "xml"), ("callback", "pong"), ("debug", "1")] =
      .ok (apiOutAs (some "nosuch") "xml" true (some "pong")
            (apiResponds "error" (PyVal.dict .nil)
              ((apiValidate cfgGood
                [("cmd", "nosuch"), ("out_type", "xml"), ("callback", "pong"), ("debug", "1")]).msg))) := by
  have h := unauthenticated_caller_controls_rendering restartOnlyHandlers
    json_loads_model xmltodict_parse_model cfgGood
    [("cmd", "nosuch"), ("out_type", "xml"), ("callback", "pong"), ("debug", "1")] (by decide)
  exact h.trans (by decide)
